import Mathlib

/-!
Shallow embedding of `rplacem/time_series.py` (class `TimeSeries` and the
module-level `calc_kendall_tau`), and proofs checking the natural-language
specification against it.

Modelling conventions:
* Python floats are modelled as exact rationals `ℚ`; the float value `NaN`
  produced by the windowed statistics is modelled as `Option.none`.
* Attributes that `__init__` sets only conditionally (`n_pts`, `tmin`,
  `t_interval`, `sw_width_mean`, `sw_width_ews`) are `Option`-valued fields;
  `none` models "attribute was never assigned", and reading it raises
  `AttributeError` (helper `getAttr`).
* Methods that can raise return `Except PyErr TimeSeries`.  Every raise point
  of the translated methods occurs before any assignment to a `self.` field,
  so a raising method leaves the object unchanged; `set_all_vars` threads the
  partially-updated object through `step` accordingly.
-/

set_option autoImplicit false

unseal Rat.mul Rat.add Rat.sub Rat.inv

namespace TS

/-- Python runtime errors that the embedded methods can raise. -/
inductive PyErr where
  /-- reading a local variable before assignment (`UnboundLocalError`, a `NameError`) -/
  | nameError
  /-- reading an object attribute that was never assigned -/
  | attributeError
  /-- indexing into an array out of bounds -/
  | indexError
  /-- pandas `rolling` rejects a non-positive window -/
  | valueError
deriving DecidableEq, Repr

instance {ε α : Type} [DecidableEq ε] [DecidableEq α] : DecidableEq (Except ε α) := fun
  | .error a, .error b =>
    if h : a = b then isTrue (by rw [h]) else isFalse (by intro hh; cases hh; exact h rfl)
  | .error _, .ok _ => isFalse (by intro h; cases h)
  | .ok _, .error _ => isFalse (by intro h; cases h)
  | .ok a, .ok b =>
    if h : a = b then isTrue (by rw [h]) else isFalse (by intro hh; cases hh; exact h rfl)

/-- `np.any` applied to a scalar boolean (as in `np.any(self.val is not None)`). -/
def np_any_bool (b : Bool) : Bool := b

/-- The state of a `TimeSeries` object.  `val` holds the value sequence
(`none` models the Python value `None`); the five conditional attributes are
`none` when `__init__` skipped them; the six derived fields are `none` until
their setter assigns them. -/
structure TimeSeries where
  val : Option (List ℚ)
  n_pts : Option ℕ
  tmin : Option ℚ
  t_interval : Option ℚ
  sw_width_mean : Option ℕ
  sw_width_ews : Option ℕ
  label : String
  t_pts : Option (List ℚ)
  variance : Option (List (Option ℚ))
  autocorrelation : Option (List (Option (ℚ × ℚ × ℚ)))
  skewness : Option (List (Option ℚ))
  kendall_tau : Option (List ℚ)
  ratio_to_sw_mean : Option (List ℚ)
deriving DecidableEq, Repr

/-- `exists(self): return np.any(self.val is not None)`. -/
def TimeSeries.exists (ts : TimeSeries) : Bool := np_any_bool ts.val.isSome

/-- `__init__`: stores `val`; sets `n_pts`, `tmin`, `t_interval`,
`sw_width_mean`, `sw_width_ews` only when `exists()`; initializes every
derived field to `None`.  (The `cpstat` branch, descriptive strings other
than `label`, and `record_all` are not needed by the claims.) -/
def TimeSeries.init (val : Option (List ℚ)) (t_interval tmin : ℚ)
    (sw_width_mean sw_width_ews : ℕ) (label : String) : TimeSeries :=
  let base : TimeSeries :=
    { val := val, n_pts := none, tmin := none, t_interval := none,
      sw_width_mean := none, sw_width_ews := none, label := label,
      t_pts := none, variance := none, autocorrelation := none,
      skewness := none, kendall_tau := none, ratio_to_sw_mean := none }
  if np_any_bool val.isSome then
    { base with
      n_pts := some (val.getD []).length,
      tmin := some tmin,
      t_interval := some t_interval,
      sw_width_mean := some sw_width_mean,
      sw_width_ews := some sw_width_ews }
  else base

/-- Reading an attribute: raises `AttributeError` when it was never assigned. -/
def getAttr {α : Type} (a : Option α) : Except PyErr α :=
  match a with
  | none => Except.error PyErr.attributeError
  | some x => Except.ok x

/-- `np.arange(start, stop, step)` for a positive `step`: the arithmetic
progression `start + k*step` of length `⌈(stop - start)/step⌉` (0 when that
ceiling is non-positive).  numpy computes each element as `start + k*step`,
not by accumulation. -/
def np_arange (start stop step : ℚ) : List ℚ :=
  (List.range ((stop - start) / step).ceil.toNat).map (fun k => start + (k : ℚ) * step)

/-- `set_t_pts`: `self.t_pts = np.arange(self.tmin, self.tmin + self.n_pts *
self.t_interval - 1e-4, self.t_interval)`.  Reading the unset attributes on a
never-populated object raises `AttributeError` before anything is assigned. -/
def TimeSeries.set_t_pts (ts : TimeSeries) : Except PyErr TimeSeries := do
  let n ← getAttr ts.n_pts
  let tmin ← getAttr ts.tmin
  let ti ← getAttr ts.t_interval
  Except.ok { ts with t_pts := some (np_arange tmin (tmin + (n : ℚ) * ti - 1/10000) ti) }

/-- `np.cumsum(self.val)` read at index `i`: per the source's own comment,
"cumsum[i] is the sum of values in indices [0, i] with i included". -/
def cumsum_at (l : List ℚ) (i : ℕ) : ℚ := (l.take (i + 1)).sum

/-- Entry `i` (`0 ≤ i < n`) of the `mean_sliding` array built by
`set_ratio_to_sw_average`'s three slice assignments:
* `mean_sliding[0] = self.val[0]`;
* `mean_sliding[1:(sw+1)] = cumul_sum[0:min(sw, n-1)] / arange(1, min(n, sw+1))`,
  i.e. `cumul_sum[i-1] / i` for `1 ≤ i ≤ min(sw, n-1)` (and `i ≤ sw` suffices
  given `i < n`);
* `mean_sliding[(sw+1):] = (cumul_sum[sw:-1] - cumul_sum[:(-sw-1)]) / float(sw)`,
  i.e. `(cumul_sum[i-1] - cumul_sum[i-1-sw]) / sw` for `sw+1 ≤ i ≤ n-1`. -/
def mean_sliding_entry (val : List ℚ) (sw i : ℕ) : ℚ :=
  if i = 0 then val.getD 0 0
  else if i ≤ sw then cumsum_at val (i - 1) / (i : ℚ)
  else (cumsum_at val (i - 1) - cumsum_at val (i - 1 - sw)) / (sw : ℚ)

/-- Modelled from the spec: `rplacem.utilities.divide_treatzero` is not under
`src/` (only its call site is).  Per the spec, "Division by zero in the
mean-ratio step ... must go through an explicit, documented zero-handling
policy (fallback constant)": when the denominator is zero the result is the
fixed substitute value rather than a raise or a NaN.  The call site passes
the two fallback arguments `(1, 1)`, so the two zero cases coincide there. -/
def divide_treatzero (a b repl0 repl00 : ℚ) : ℚ :=
  if b = 0 then (if a = 0 then repl00 else repl0) else a / b

/-- The array stored by `set_ratio_to_sw_average`: `self.val - mean_sliding`
for an `'autoco...'`-labelled series (`# take the difference rather than the
ratio for autocorrelation`), else `divide_treatzero(self.val, mean_sliding,
1, 1)`, both elementwise over the `n` indices. -/
def ratio_result (val : List ℚ) (n sw : ℕ) (label : String) : List ℚ :=
  if label.take 6 = "autoco" then
    (List.range n).map (fun i => val.getD i 0 - mean_sliding_entry val sw i)
  else
    (List.range n).map
      (fun i => divide_treatzero (val.getD i 0) (mean_sliding_entry val sw i) 1 1)

/-- `set_ratio_to_sw_average(self, rerun=False)`: skipped when the cache is
set and `rerun` is false; otherwise builds `mean_sliding` (raising
`IndexError` at `mean_sliding[0] = self.val[0]` on a length-0 array) and
stores `ratio_result`. -/
def TimeSeries.set_ratio_to_sw_average (ts : TimeSeries) (rerun : Bool) :
    Except PyErr TimeSeries :=
  if ts.ratio_to_sw_mean = none ∨ rerun = true then do
    let n ← getAttr ts.n_pts            -- np.empty(self.n_pts)
    let sw ← getAttr ts.sw_width_mean
    let val := ts.val.getD []           -- self.val (populated whenever n_pts is set)
    if val.length = 0 then
      Except.error PyErr.indexError     -- self.val[0] on an empty array
    else
      Except.ok { ts with ratio_to_sw_mean := some (ratio_result val n sw ts.label) }
  else Except.ok ts

/-- The window pandas `rolling(window=w, min_periods=1)` feeds to a statistic
at index `i`: the samples at indices `[max 0 (i+1-w), i]`. -/
def window (val : List ℚ) (w i : ℕ) : List ℚ := (val.take (i + 1)).drop (i + 1 - w)

/-- `pd.Series(val).rolling(window=w, min_periods=1)` followed by a windowed
statistic `f`: one output per input index. -/
def rolling {α : Type} (w : ℕ) (f : List ℚ → α) (val : List ℚ) : List α :=
  (List.range val.length).map (fun i => f (window val w i))

/-- pandas `Series.var()` (unbiased, `ddof=1`) over a window of `k` samples:
`NaN` for `k ≤ 1`, else `Σ (x - mean)² / (k - 1)`. -/
def sampleVar (l : List ℚ) : Option ℚ :=
  if l.length ≤ 1 then none
  else
    let k : ℚ := l.length
    let m := l.sum / k
    some (((l.map (fun x => (x - m) ^ 2)).sum) / (k - 1))

/-- `set_variance`: `pd.Series(self.val)` (an empty series when `val` is
`None`), then `rolling(window=self.sw_width_ews, min_periods=1).var()`;
reading the unset `sw_width_ews` raises `AttributeError`, and pandas rejects
a zero window with `ValueError`. -/
def TimeSeries.set_variance (ts : TimeSeries) : Except PyErr TimeSeries := do
  let x := ts.val.getD []
  let w ← getAttr ts.sw_width_ews
  if w = 0 then Except.error PyErr.valueError
  else Except.ok { ts with variance := some (rolling w sampleVar x) }

/-- pandas `Series.autocorr()` (lag-1) over a window `y` of `k` samples:
the Pearson correlation of `a = y[1:]` against `b = y[:-1]` (`k-1` pairs),
`NaN` when fewer than 2 pairs exist or either slice has zero variance.  The
correlation value is `cov / √(va·vb)`, irrational in general, so the exact
triple `(cov, va, vb)` is recorded; `none` is exactly pandas' `NaN`. -/
def series_autocorr (y : List ℚ) : Option (ℚ × ℚ × ℚ) :=
  let a := y.drop 1
  let b := y.dropLast
  if a.length ≤ 1 then none
  else
    let p : ℚ := a.length
    let ma := a.sum / p
    let mb := b.sum / p
    let cov := (List.zipWith (fun u v => (u - ma) * (v - mb)) a b).sum
    let va := (a.map (fun u => (u - ma) ^ 2)).sum
    let vb := (b.map (fun v => (v - mb) ^ 2)).sum
    if va = 0 ∨ vb = 0 then none else some (cov, va, vb)

/-- `set_autocorrelation`: rolling `apply(lambda y: y.autocorr())` with
`min_periods=1`. -/
def TimeSeries.set_autocorrelation (ts : TimeSeries) : Except PyErr TimeSeries := do
  let x := ts.val.getD []
  let w ← getAttr ts.sw_width_ews
  if w = 0 then Except.error PyErr.valueError
  else Except.ok { ts with autocorrelation := some (rolling w series_autocorr x) }

/-- `set_skewness`: its first statement is `x = pd.Series(x)`, which reads the
local variable `x` before any assignment to it, so the method unconditionally
raises `UnboundLocalError` (a `NameError`) and never touches `self.skewness`. -/
def TimeSeries.set_skewness (_ts : TimeSeries) : Except PyErr TimeSeries :=
  Except.error PyErr.nameError

/-- `sign` of a rational, as used in counting concordant/discordant pairs. -/
def signQ (q : ℚ) : ℚ := if 0 < q then 1 else if q < 0 then -1 else 0

/-- `Σ_{i<j} sign(y_j - y_i)`: concordant minus discordant pairs of `(x, y)`
when `x` is the strictly increasing positional index. -/
def concordanceSum : List ℚ → ℚ
  | [] => 0
  | a :: rest => (rest.map (fun b => signQ (b - a))).sum + concordanceSum rest

/-- `scipy.stats.kendalltau(np.arange(k), y, variant='c').statistic` where
`k = len(y)`: Stuart's tau-c, `2·m·(P-Q) / (k²·(m-1))` with
`m = min(#distinct x, #distinct y)`; `NaN` (here `none`) exactly when the
input is too short (`k ≤ 1`) or `y` is constant, i.e. `m ≤ 1`.  Since
`x = 0..k-1` is strictly increasing, `P - Q = Σ_{i<j} sign(y_j - y_i)`. -/
def kendalltau_c_arange (y : List ℚ) : Option ℚ :=
  let k := y.length
  let m := min k y.dedup.length
  if k ≤ 1 ∨ y.dedup.length ≤ 1 then none
  else some ((2 * (m : ℚ) * concordanceSum y) / ((k : ℚ) ^ 2 * ((m : ℚ) - 1)))

/-- `calc_kendall_tau(variable)`: the tau-c statistic of the window against
its positional index, with `if np.isnan(res): res = 0`. -/
def calc_kendall_tau (variab : List ℚ) : ℚ :=
  match kendalltau_c_arange variab with
  | none => 0
  | some r => r

/-- `set_kendall_tau(self, rerun=False)`: guarded by
`self.exists() and (self.kendall_tau is None or rerun)`, then rolling
`apply(calc_kendall_tau)` with `min_periods=1`. -/
def TimeSeries.set_kendall_tau (ts : TimeSeries) (rerun : Bool) :
    Except PyErr TimeSeries :=
  if ts.exists = true ∧ (ts.kendall_tau = none ∨ rerun = true) then do
    let x := ts.val.getD []
    let w ← getAttr ts.sw_width_ews
    if w = 0 then Except.error PyErr.valueError
    else Except.ok { ts with kendall_tau := some (rolling w calc_kendall_tau x) }
  else Except.ok ts

/-- Sequencing of the mutating methods: a raise stops the chain but keeps the
object as mutated so far (each translated method raises only before assigning
any field, so on error the object passed in is returned unchanged). -/
def step (f : TimeSeries → Except PyErr TimeSeries) :
    TimeSeries × Option PyErr → TimeSeries × Option PyErr
  | (t, some e) => (t, some e)
  | (t, none) =>
    match f t with
    | Except.ok t2 => (t2, none)
    | Except.error e => (t, some e)

/-- `set_all_vars`: `set_t_pts(); set_ratio_to_sw_average(); set_variance();
set_autocorrelation(); set_skewness(); set_kendall_tau()`, returning the
object together with the first raised error if any. -/
def TimeSeries.set_all_vars (ts : TimeSeries) : TimeSeries × Option PyErr :=
  step (fun t => t.set_kendall_tau false)
    (step TimeSeries.set_skewness
      (step TimeSeries.set_autocorrelation
        (step TimeSeries.set_variance
          (step (fun t => t.set_ratio_to_sw_average false)
            (step TimeSeries.set_t_pts (ts, none))))))

/-- Written from the spec's words, for the refinement claim: "Window mean is
the arithmetic mean of values strictly before i, over the last `sw` samples,
or over all samples seen so far if fewer than `sw` are available", i.e. the
mean of `val` over `[max(0, i-sw), i)`. -/
def specWindowMean (val : List ℚ) (sw i : ℕ) : ℚ :=
  ((val.take i).drop (i - sw)).sum / ((((val.take i).drop (i - sw)).length : ℕ) : ℚ)


/-- A concrete populated three-point series (`val=[1,2,3]`, default-like
parameters), used to evaluate the code at the failing input of the skewness
defect. -/
def sample3 : TimeSeries := TimeSeries.init (some [1, 2, 3]) 300 0 40 10 ""

@[simp] theorem getAttr_some {α : Type} (x : α) : getAttr (some x) = Except.ok x := rfl

@[simp] theorem getAttr_none {α : Type} :
    getAttr (none : Option α) = Except.error PyErr.attributeError := rfl

@[simp] theorem ok_bind {α β : Type} (x : α) (f : α → Except PyErr β) :
    (Except.ok x : Except PyErr α) >>= f = f x := rfl

@[simp] theorem error_bind {α β : Type} (e : PyErr) (f : α → Except PyErr β) :
    (Except.error e : Except PyErr α) >>= f = Except.error e := rfl

@[simp] theorem map_ok {α β : Type} (f : α → β) (x : α) :
    Except.map f (Except.ok x : Except PyErr α) = Except.ok (f x) := rfl

@[simp] theorem map_error {α β : Type} (f : α → β) (e : PyErr) :
    Except.map f (Except.error e : Except PyErr α) = Except.error e := rfl

/-- `__init__` on a present value sequence, written out as a record literal. -/
theorem init_some (v : List ℚ) (ti tm : ℚ) (sw w : ℕ) (label : String) :
    TimeSeries.init (some v) ti tm sw w label =
      { val := some v, n_pts := some v.length, tmin := some tm,
        t_interval := some ti, sw_width_mean := some sw, sw_width_ews := some w,
        label := label, t_pts := none, variance := none, autocorrelation := none,
        skewness := none, kendall_tau := none, ratio_to_sw_mean := none } := rfl

/-- `__init__` on an absent value sequence, written out as a record literal. -/
theorem init_none (ti tm : ℚ) (sw w : ℕ) (label : String) :
    TimeSeries.init none ti tm sw w label =
      { val := none, n_pts := none, tmin := none,
        t_interval := none, sw_width_mean := none, sw_width_ews := none,
        label := label, t_pts := none, variance := none, autocorrelation := none,
        skewness := none, kendall_tau := none, ratio_to_sw_mean := none } := rfl

theorem getD_map_range (f : ℕ → ℚ) (n i : ℕ) (h : i < n) :
    ((List.range n).map f).getD i 0 = f i := by
  rw [List.getD_eq_getElem?_getD, List.getElem?_map, List.getElem?_range h]
  rfl

/-- Batteries' executable `Rat.ceil` agrees with Mathlib's `⌈⌉`. -/
theorem rat_ceil_eq_ceil (q : ℚ) : q.ceil = ⌈q⌉ := by
  unfold Rat.ceil
  by_cases h : q.den = 1
  · rw [if_pos h]
    have hq : ((q.num : ℚ)) = q := by
      conv_rhs => rw [← Rat.num_div_den q]
      rw [h]
      norm_num
    conv_rhs => rw [← hq]
    rw [Int.ceil_intCast]
  · rw [if_neg h]
    have hfl : q.num / (q.den : ℤ) = ⌊q⌋ := Rat.floor_def.symm
    rw [hfl]
    symm
    rw [Int.ceil_eq_iff]
    have h1 : (⌊q⌋ : ℚ) ≤ q := Int.floor_le q
    have h2 : (⌊q⌋ : ℚ) ≠ q := by
      intro he
      exact h (by rw [← he]; exact Rat.den_intCast _)
    have h3 : (⌊q⌋ : ℚ) < q := lt_of_le_of_ne h1 h2
    have h4 : q < (⌊q⌋ : ℚ) + 1 := Int.lt_floor_add_one q
    constructor
    · push_cast
      linarith
    · push_cast
      linarith

/-- The `np.arange` call of `set_t_pts` produces exactly `n` points as soon as
the hard-coded epsilon `1e-4` is smaller than the step. -/
theorem np_arange_count (start step : ℚ) (n : ℕ) (h : 1/10000 < step) :
    np_arange start (start + (n : ℚ) * step - 1/10000) step
      = (List.range n).map (fun k => start + (k : ℚ) * step) := by
  unfold np_arange
  have hstep : 0 < step := lt_trans (by norm_num) h
  have hcount : ((start + (n : ℚ) * step - 1/10000 - start) / step).ceil.toNat = n := by
    rw [rat_ceil_eq_ceil]
    have hx : (start + (n : ℚ) * step - 1/10000 - start) / step
        = (n : ℚ) - (1/10000) / step := by
      field_simp
      ring
    rw [hx]
    have hd0 : 0 < (1/10000 : ℚ) / step := by positivity
    have hd1 : (1/10000 : ℚ) / step < 1 := (div_lt_one hstep).mpr h
    have : ⌈(n : ℚ) - (1/10000) / step⌉ = (n : ℤ) := by
      rw [Int.ceil_eq_iff]
      constructor
      · push_cast
        linarith
      · push_cast
        linarith
    rw [this, Int.toNat_natCast]
  rw [hcount]

/-- The cumulative-sum entries of `mean_sliding` equal the spec's trailing
window mean `[max(0, i-sw), i)` at every index `i ≥ 1`. -/
theorem mean_sliding_eq_spec (val : List ℚ) (sw i : ℕ)
    (hi1 : 1 ≤ i) (hi : i < val.length) (hsw : 1 ≤ sw) :
    mean_sliding_entry val sw i = specWindowMean val sw i := by
  have hi0 : i ≠ 0 := by omega
  have hcs : ∀ j : ℕ, 1 ≤ j → cumsum_at val (j - 1) = (val.take j).sum := by
    intro j hj
    unfold cumsum_at
    congr 2
    omega
  unfold mean_sliding_entry specWindowMean
  rw [if_neg hi0]
  by_cases hle : i ≤ sw
  · rw [if_pos hle, hcs i hi1]
    have h0 : i - sw = 0 := Nat.sub_eq_zero_of_le hle
    rw [h0, List.drop_zero]
    have hlen : (val.take i).length = i := by
      rw [List.length_take]
      omega
    rw [hlen]
  · rw [if_neg hle]
    push_neg at hle
    rw [hcs i hi1]
    have h2 : cumsum_at val (i - 1 - sw) = (val.take (i - sw)).sum := by
      unfold cumsum_at
      congr 2
      omega
    rw [h2]
    have h4 : (val.take i).take (i - sw) = val.take (i - sw) := by
      rw [List.take_take]
      congr 1
      omega
    have hsum : ((val.take i).drop (i - sw)).sum
        = (val.take i).sum - (val.take (i - sw)).sum := by
      have h3 := List.sum_take_add_sum_drop (val.take i) (i - sw)
      rw [h4] at h3
      linarith
    have hlen : ((val.take i).drop (i - sw)).length = sw := by
      rw [List.length_drop, List.length_take]
      omega
    rw [hsum, hlen]

/-- Running `set_ratio_to_sw_average` on a freshly populated series succeeds
and stores, at each in-range index, the ratio (or, for `autoco`-labelled
series, the difference) of `val[i]` to the `mean_sliding` entry. -/
theorem set_ratio_init_entry (val : List ℚ) (ti tm : ℚ) (sw w : ℕ) (label : String)
    (i : ℕ) (hi : i < val.length) :
    Except.map (fun t => (t.ratio_to_sw_mean.getD []).getD i 0)
        ((TimeSeries.init (some val) ti tm sw w label).set_ratio_to_sw_average false)
      = Except.ok (if label.take 6 = "autoco"
          then val.getD i 0 - mean_sliding_entry val sw i
          else divide_treatzero (val.getD i 0) (mean_sliding_entry val sw i) 1 1) := by
  have hlen : val.length ≠ 0 := by omega
  rw [init_some]
  unfold TimeSeries.set_ratio_to_sw_average
  simp only [Option.getD_some]
  rw [if_pos (Or.inl trivial)]
  simp only [getAttr_some, ok_bind]
  rw [if_neg hlen, map_ok]
  simp only [Option.getD_some]
  unfold ratio_result
  by_cases hlab : label.take 6 = "autoco"
  · rw [if_pos hlab, if_pos hlab, getD_map_range _ _ _ hi]
  · rw [if_neg hlab, if_neg hlab, getD_map_range _ _ _ hi]

/-- Claim C1 (code bug): on the populated series `[1,2,3]`, `set_skewness`
does not compute the rolling skewness of `self.val` — its first statement
`x = pd.Series(x)` reads the unbound local `x`, so it raises `NameError`,
`set_all_vars` propagates that error, and the skewness field is never
assigned. -/
theorem claim_C1_skewness_setter_raises :
    sample3.set_skewness = Except.error PyErr.nameError ∧
    (sample3.set_all_vars).2 = some PyErr.nameError ∧
    (sample3.set_all_vars).1.skewness = none := by
  decide

/-- Claim C3 (code bug at the skewness member): on the populated 3-point
series, the ratio, variance, autocorrelation and Kendall-tau setters each
produce a sequence of exactly 3 elements, but `set_skewness` raises
`NameError`, so the skewness sequence never attains length n (it stays
wholly absent). -/
theorem claim_C3_derived_sequence_lengths :
    Except.map (fun t => (t.ratio_to_sw_mean.getD []).length)
        (sample3.set_ratio_to_sw_average false) = Except.ok 3 ∧
    Except.map (fun t => (t.variance.getD []).length) sample3.set_variance
      = Except.ok 3 ∧
    Except.map (fun t => (t.autocorrelation.getD []).length) sample3.set_autocorrelation
      = Except.ok 3 ∧
    Except.map (fun t => (t.kendall_tau.getD []).length) (sample3.set_kendall_tau false)
      = Except.ok 3 ∧
    sample3.set_skewness = Except.error PyErr.nameError ∧
    (sample3.set_all_vars).1.skewness = none := by
  decide

/-- Claim C10: `exists()` returns true exactly when `val` is not `None`; in
particular it returns true for a zero-length array, and on such an instance
the setters proceed into their bodies (`set_kendall_tau` stores an empty
sequence, `set_ratio_to_sw_average` reaches `self.val[0]` and raises
`IndexError`) instead of treating the object as absent. -/
theorem claim_C10_exists_empty_array :
    (∀ ts : TimeSeries, ts.exists = true ↔ ts.val ≠ none) ∧
    (∀ (ti tm : ℚ) (sw w : ℕ) (label : String),
        (TimeSeries.init (some []) ti tm sw w label).exists = true) ∧
    Except.map (fun t => t.kendall_tau)
        ((TimeSeries.init (some []) 300 0 40 10 "").set_kendall_tau false)
      = Except.ok (some []) ∧
    (TimeSeries.init (some []) 300 0 40 10 "").set_ratio_to_sw_average false
      = Except.error PyErr.indexError := by
  refine ⟨?_, ?_, by decide, by decide⟩
  · intro ts
    unfold TimeSeries.exists np_any_bool
    exact Option.isSome_iff_ne_none
  · intro ti tm sw w label
    rfl

/-- Claim C4: for every populated series, every index `i ≥ 1`, and a positive
mean-window width, the cumulative-sum sliding mean equals the arithmetic mean
of `val` over the trailing window `[max(0, i-sw), i)` excluding `i`, and the
stored result at `i` is `val[i]` divided by that mean (through the safe
divide, hence literally `val[i]/mean` whenever the mean is nonzero) — except
for an autocorrelation-labelled series, where it is `val[i]` minus the mean. -/
theorem claim_C4_sliding_mean_refinement
    (val : List ℚ) (ti tm : ℚ) (sw w : ℕ) (label : String) (i : ℕ)
    (hi1 : 1 ≤ i) (hi : i < val.length) (hsw : 1 ≤ sw) :
    mean_sliding_entry val sw i = specWindowMean val sw i ∧
    Except.map (fun t => (t.ratio_to_sw_mean.getD []).getD i 0)
        ((TimeSeries.init (some val) ti tm sw w label).set_ratio_to_sw_average false)
      = Except.ok (if label.take 6 = "autoco"
          then val.getD i 0 - specWindowMean val sw i
          else divide_treatzero (val.getD i 0) (specWindowMean val sw i) 1 1) ∧
    (specWindowMean val sw i ≠ 0 →
      divide_treatzero (val.getD i 0) (specWindowMean val sw i) 1 1
        = val.getD i 0 / specWindowMean val sw i) := by
  have hm := mean_sliding_eq_spec val sw i hi1 hi hsw
  refine ⟨hm, ?_, ?_⟩
  · rw [set_ratio_init_entry val ti tm sw w label i hi, hm]
  · intro hz
    unfold divide_treatzero
    rw [if_neg hz]

/-- Witness for C4: at `val=[1,2,4]`, `sw=1`, `i=2`, the implementation mean
equals the spec's window mean (namely `val[1] = 2`). -/
theorem claim_C4_sliding_mean_refinement_witness :
    mean_sliding_entry [1, 2, 4] 1 2 = specWindowMean [1, 2, 4] 1 2 ∧
    specWindowMean [1, 2, 4] 1 2 = 2 :=
  ⟨(claim_C4_sliding_mean_refinement [1, 2, 4] 300 0 1 10 "" 2
      (by decide) (by decide) (by decide)).1, by norm_num [specWindowMean]⟩

/-- Claim C6: whenever the sliding mean at an index is zero (non-autoco
label), `set_ratio_to_sw_average` still succeeds and stores the fixed
fallback constant 1 at that index rather than raising or storing NaN. -/
theorem claim_C6_zero_mean_safe_divide
    (val : List ℚ) (ti tm : ℚ) (sw w : ℕ) (label : String) (i : ℕ)
    (hi : i < val.length) (_hsw : 1 ≤ sw)
    (hlab : label.take 6 ≠ "autoco")
    (hmean : mean_sliding_entry val sw i = 0) :
    Except.map (fun t => (t.ratio_to_sw_mean.getD []).getD i 0)
        ((TimeSeries.init (some val) ti tm sw w label).set_ratio_to_sw_average false)
      = Except.ok 1 := by
  rw [set_ratio_init_entry val ti tm sw w label i hi, if_neg hlab, hmean]
  unfold divide_treatzero
  rw [if_pos rfl]
  by_cases h0 : val.getD i 0 = 0
  · rw [if_pos h0]
  · rw [if_neg h0]

/-- Witness for C6: `val=[1,-1,4]`, `sw=2`: the window mean at index 2 is
`(1 + (-1))/2 = 0` and the stored ratio is the fallback 1. -/
theorem claim_C6_zero_mean_safe_divide_witness :
    Except.map (fun t => (t.ratio_to_sw_mean.getD []).getD 2 0)
        ((TimeSeries.init (some [1, -1, 4]) 300 0 2 10 "").set_ratio_to_sw_average false)
      = Except.ok 1 :=
  claim_C6_zero_mean_safe_divide [1, -1, 4] 300 0 2 10 "" 2
    (by decide) (by decide) (by decide)
    (by norm_num [mean_sliding_entry, cumsum_at])

/-- Claim C9: on every populated (non-autoco) series the ratio at index 0 is
the defined value `divide_treatzero(val[0], val[0], 1, 1)` — the window mean
at 0 degenerates to `val[0]` itself — which is 1 both when `val[0] ≠ 0`
(`val[0]/val[0]`) and via the fallback when `val[0] = 0`. -/
theorem claim_C9_ratio_at_index_zero
    (val : List ℚ) (ti tm : ℚ) (sw w : ℕ) (label : String)
    (hne : val ≠ []) (hlab : label.take 6 ≠ "autoco") :
    Except.map (fun t => (t.ratio_to_sw_mean.getD []).getD 0 0)
        ((TimeSeries.init (some val) ti tm sw w label).set_ratio_to_sw_average false)
      = Except.ok (divide_treatzero (val.getD 0 0) (val.getD 0 0) 1 1) ∧
    divide_treatzero (val.getD 0 0) (val.getD 0 0) 1 1 = 1 ∧
    (val.getD 0 0 ≠ 0 → val.getD 0 0 / val.getD 0 0 = 1) := by
  have hi0 : 0 < val.length := List.length_pos.mpr hne
  have hm : mean_sliding_entry val sw 0 = val.getD 0 0 := by
    unfold mean_sliding_entry
    rw [if_pos rfl]
  refine ⟨?_, ?_, fun h0 => div_self h0⟩
  · rw [set_ratio_init_entry val ti tm sw w label 0 hi0, if_neg hlab, hm]
  · unfold divide_treatzero
    by_cases h0 : val.getD 0 0 = 0
    · rw [if_pos h0, if_pos h0]
    · rw [if_neg h0]
      exact div_self h0

/-- Witness for C9 at the one-point series `[7]`. -/
theorem claim_C9_ratio_at_index_zero_witness :
    Except.map (fun t => (t.ratio_to_sw_mean.getD []).getD 0 0)
        ((TimeSeries.init (some [7]) 300 0 40 10 "").set_ratio_to_sw_average false)
      = Except.ok (divide_treatzero (List.getD [7] 0 0) (List.getD [7] 0 0) 1 1) :=
  (claim_C9_ratio_at_index_zero [7] 300 0 40 10 "" (by decide) (by decide)).1

/-- Claim C7: whenever the tau-c statistic of a window against its positional
index is undefined (NaN), `calc_kendall_tau` returns 0; the sequence stored
by `set_kendall_tau` consists exactly of `calc_kendall_tau` applied to each
trailing window, hence of plain (never-NaN) values. -/
theorem claim_C7_kendall_nan_replaced_by_zero
    (y val : List ℚ) (ti tm : ℚ) (sw w : ℕ) (label : String)
    (hw : w ≠ 0) (hnan : kendalltau_c_arange y = none) :
    calc_kendall_tau y = 0 ∧
    Except.map (fun t => t.kendall_tau)
        ((TimeSeries.init (some val) ti tm sw w label).set_kendall_tau false)
      = Except.ok (some (rolling w calc_kendall_tau val)) ∧
    (∀ i, i < val.length →
      (rolling w calc_kendall_tau val).getD i 0 = calc_kendall_tau (window val w i)) := by
  refine ⟨?_, ?_, ?_⟩
  · unfold calc_kendall_tau
    rw [hnan]
  · rw [init_some]
    unfold TimeSeries.set_kendall_tau
    rw [if_pos ⟨rfl, Or.inl rfl⟩]
    simp only [getAttr_some, ok_bind, Option.getD_some]
    rw [if_neg hw]
    rfl
  · intro i hi
    unfold rolling
    rw [getD_map_range _ _ _ hi]

/-- Witness for C7: the constant window `[5,5]` has an undefined tau-c
(`none` in the model), and `calc_kendall_tau` maps it to 0. -/
theorem claim_C7_kendall_nan_replaced_by_zero_witness :
    calc_kendall_tau [5, 5] = 0 ∧ kendalltau_c_arange [5, 5] = none :=
  ⟨(claim_C7_kendall_nan_replaced_by_zero [5, 5] [5, 5] 300 0 40 10 ""
      (by decide) (by decide)).1, by decide⟩

/-- When the stop bound does not exceed the start, `np.arange` is empty. -/
theorem np_arange_of_le (start stop step : ℚ) (h : stop ≤ start) (hs : 0 < step) :
    np_arange start stop step = [] := by
  unfold np_arange
  have hc : ((stop - start) / step).ceil ≤ 0 := by
    rw [rat_ceil_eq_ceil, Int.ceil_le]
    push_cast
    have hnum : stop - start ≤ 0 := by linarith
    exact div_nonpos_of_nonpos_of_nonneg hnum hs.le
  rw [Int.toNat_of_nonpos hc]
  rfl

/-- Claim C8 counterexample: a populated 2-point series constructed with
`t_interval = 1e-4` (the same constant as the hard-coded epsilon in
`set_t_pts`) gets a time axis of 1 point, not n = 2. -/
theorem claim_C8_counterexample :
    Except.map (fun t => (t.t_pts.getD []).length)
        ((TimeSeries.init (some [0, 0]) (1/10000) 0 40 10 "").set_t_pts)
      = Except.ok 1 ∧ (1 : ℕ) ≠ [(0 : ℚ), 0].length := by
  decide

/-- Claim C8 as amended: whenever `t_interval` exceeds the epsilon `1e-4`
subtracted from the stop bound (as with the documented `t_interval = 300`),
`set_t_pts` stores exactly n points whose i-th element is
`tmin + i * t_interval`; in particular `tmin=0`, `t_interval=300`, `n=5`
gives exactly `[0, 300, 600, 900, 1200]`. -/
theorem claim_C8_t_pts_amended
    (val : List ℚ) (ti tm : ℚ) (sw w : ℕ) (label : String)
    (hti : 1/10000 < ti) :
    Except.map (fun t => t.t_pts)
        ((TimeSeries.init (some val) ti tm sw w label).set_t_pts)
      = Except.ok (some ((List.range val.length).map (fun k => tm + (k : ℚ) * ti))) ∧
    Except.map (fun t => t.t_pts)
        ((TimeSeries.init (some [0, 0, 0, 0, 0]) 300 0 40 10 "").set_t_pts)
      = Except.ok (some [0, 300, 600, 900, 1200]) := by
  constructor
  · rw [init_some]
    unfold TimeSeries.set_t_pts
    simp only [getAttr_some, ok_bind, map_ok]
    rw [np_arange_count tm ti val.length hti]
  · decide

/-- Witness for the amended C8, instantiated at the spec's concrete case. -/
theorem claim_C8_t_pts_amended_witness :
    Except.map (fun t => t.t_pts)
        ((TimeSeries.init (some [0, 0, 0, 0, 0]) 300 0 40 10 "").set_t_pts)
      = Except.ok (some [0, 300, 600, 900, 1200]) :=
  (claim_C8_t_pts_amended [0, 0, 0, 0, 0] 300 0 40 10 "" (by norm_num)).2

/-- Claim C2 counterexample: on a `TimeSeries` whose value sequence is absent
(`None`), `set_all_vars` raises (`AttributeError` reading the never-assigned
`n_pts` in `set_t_pts`) instead of silently skipping. -/
theorem claim_C2_counterexample :
    ((TimeSeries.init none 300 0 40 10 "").set_all_vars).2
      = some PyErr.attributeError := by
  decide

/-- Claim C2 as amended: `set_all_vars` raises rather than silently skipping.
On an absent (`None`) sequence it raises `AttributeError` and leaves the
object unchanged (every derived field still `None`); on an empty (length-0)
sequence it first stores an empty — non-`None` — time axis, then raises
`IndexError` inside `set_ratio_to_sw_average`, leaving the five statistic
fields `None`. -/
theorem claim_C2_set_all_vars_amended (ti tm : ℚ) (sw w : ℕ) (label : String)
    (hti : 0 < ti) :
    (((TimeSeries.init none ti tm sw w label).set_all_vars).2
        = some PyErr.attributeError ∧
      ((TimeSeries.init none ti tm sw w label).set_all_vars).1
        = TimeSeries.init none ti tm sw w label) ∧
    (((TimeSeries.init (some []) ti tm sw w label).set_all_vars).2
        = some PyErr.indexError ∧
      ((TimeSeries.init (some []) ti tm sw w label).set_all_vars).1.t_pts = some [] ∧
      ((TimeSeries.init (some []) ti tm sw w label).set_all_vars).1.ratio_to_sw_mean = none ∧
      ((TimeSeries.init (some []) ti tm sw w label).set_all_vars).1.variance = none ∧
      ((TimeSeries.init (some []) ti tm sw w label).set_all_vars).1.autocorrelation = none ∧
      ((TimeSeries.init (some []) ti tm sw w label).set_all_vars).1.skewness = none ∧
      ((TimeSeries.init (some []) ti tm sw w label).set_all_vars).1.kendall_tau = none) := by
  have harange : np_arange tm (tm + ((List.length ([] : List ℚ)) : ℚ) * ti - 1/10000) ti
      = [] := by
    apply np_arange_of_le _ _ _ _ hti
    simp only [List.length_nil, Nat.cast_zero, zero_mul, add_zero]
    linarith
  constructor
  · constructor
    · rfl
    · rfl
  · unfold TimeSeries.set_all_vars
    rw [init_some]
    unfold TimeSeries.set_t_pts
    simp only [getAttr_some, ok_bind, step, harange]
    unfold TimeSeries.set_ratio_to_sw_average
    simp only [Option.getD_some, List.length_nil, step, getAttr_some, ok_bind,
      eq_self_iff_true, true_or, if_true]
    refine ⟨?_, ?_, ?_, ?_, ?_, ?_, ?_⟩ <;> trivial

/-- Witness for the amended C2 at the default-like parameters. -/
theorem claim_C2_set_all_vars_amended_witness :
    (((TimeSeries.init none 300 0 40 10 "").set_all_vars).2
        = some PyErr.attributeError ∧
      ((TimeSeries.init none 300 0 40 10 "").set_all_vars).1
        = TimeSeries.init none 300 0 40 10 "") ∧
    (((TimeSeries.init (some []) 300 0 40 10 "").set_all_vars).2
        = some PyErr.indexError ∧
      ((TimeSeries.init (some []) 300 0 40 10 "").set_all_vars).1.t_pts = some [] ∧
      ((TimeSeries.init (some []) 300 0 40 10 "").set_all_vars).1.ratio_to_sw_mean = none ∧
      ((TimeSeries.init (some []) 300 0 40 10 "").set_all_vars).1.variance = none ∧
      ((TimeSeries.init (some []) 300 0 40 10 "").set_all_vars).1.autocorrelation = none ∧
      ((TimeSeries.init (some []) 300 0 40 10 "").set_all_vars).1.skewness = none ∧
      ((TimeSeries.init (some []) 300 0 40 10 "").set_all_vars).1.kendall_tau = none) :=
  claim_C2_set_all_vars_amended 300 0 40 10 "" (by norm_num)

/-- Computing `set_t_pts` on any object whose three time attributes are set. -/
theorem set_t_pts_eq (t : TimeSeries) (n : ℕ) (tm ti : ℚ)
    (hn : t.n_pts = some n) (htm : t.tmin = some tm) (hti : t.t_interval = some ti) :
    t.set_t_pts
      = Except.ok { t with t_pts := some (np_arange tm (tm + (n : ℚ) * ti - 1/10000) ti) } := by
  unfold TimeSeries.set_t_pts
  rw [hn, htm, hti]
  simp only [getAttr_some, ok_bind]

/-- Computing `set_variance` on any object with a present value sequence and
a positive `sw_width_ews`. -/
theorem set_variance_eq (t : TimeSeries) (v : List ℚ) (w : ℕ)
    (hval : t.val = some v) (hw' : t.sw_width_ews = some w) (hw : w ≠ 0) :
    t.set_variance = Except.ok { t with variance := some (rolling w sampleVar v) } := by
  unfold TimeSeries.set_variance
  rw [hval, hw']
  simp only [Option.getD_some, getAttr_some, ok_bind]
  rw [if_neg hw]

/-- Computing `set_autocorrelation` on any object with a present value
sequence and a positive `sw_width_ews`. -/
theorem set_autocorrelation_eq (t : TimeSeries) (v : List ℚ) (w : ℕ)
    (hval : t.val = some v) (hw' : t.sw_width_ews = some w) (hw : w ≠ 0) :
    t.set_autocorrelation
      = Except.ok { t with autocorrelation := some (rolling w series_autocorr v) } := by
  unfold TimeSeries.set_autocorrelation
  rw [hval, hw']
  simp only [Option.getD_some, getAttr_some, ok_bind]
  rw [if_neg hw]

/-- Computing `set_kendall_tau` on a populated object when the guard lets the
body run (cache absent, or the rerun flag set). -/
theorem set_kendall_tau_eq (t : TimeSeries) (v : List ℚ) (w : ℕ) (rerun : Bool)
    (hval : t.val = some v) (hw' : t.sw_width_ews = some w) (hw : w ≠ 0)
    (hrun : t.kendall_tau = none ∨ rerun = true) :
    t.set_kendall_tau rerun
      = Except.ok { t with kendall_tau := some (rolling w calc_kendall_tau v) } := by
  have hex : t.exists = true := by
    unfold TimeSeries.exists np_any_bool
    rw [hval]
    rfl
  unfold TimeSeries.set_kendall_tau
  rw [if_pos ⟨hex, hrun⟩, hval, hw']
  simp only [Option.getD_some, getAttr_some, ok_bind]
  rw [if_neg hw]

/-- `set_kendall_tau` without the rerun flag skips when the cache is set. -/
theorem set_kendall_tau_skip (t : TimeSeries) (hk : t.kendall_tau ≠ none) :
    t.set_kendall_tau false = Except.ok t := by
  unfold TimeSeries.set_kendall_tau
  rw [if_neg (fun hc => hc.2.elim hk (fun hf => by cases hf))]

/-- `set_ratio_to_sw_average` without the rerun flag skips when the cache is
set. -/
theorem set_ratio_skip (t : TimeSeries) (hk : t.ratio_to_sw_mean ≠ none) :
    t.set_ratio_to_sw_average false = Except.ok t := by
  unfold TimeSeries.set_ratio_to_sw_average
  rw [if_neg (fun hc => hc.elim hk (fun hf => by cases hf))]

/-- Computing `set_ratio_to_sw_average` on a populated object when the guard
lets the body run. -/
theorem set_ratio_eq (t : TimeSeries) (v : List ℚ) (n sw : ℕ) (rerun : Bool)
    (hval : t.val = some v) (hn : t.n_pts = some n) (hsw : t.sw_width_mean = some sw)
    (hne : v.length ≠ 0)
    (hrun : t.ratio_to_sw_mean = none ∨ rerun = true) :
    t.set_ratio_to_sw_average rerun
      = Except.ok { t with ratio_to_sw_mean := some (ratio_result v n sw t.label) } := by
  unfold TimeSeries.set_ratio_to_sw_average
  rw [if_pos hrun, hn, hsw, hval]
  simp only [Option.getD_some, getAttr_some, ok_bind]
  rw [if_neg hne]

theorem eta_ratio (t : TimeSeries) {x : Option (List ℚ)} (h : t.ratio_to_sw_mean = x) :
    ({ t with ratio_to_sw_mean := x } : TimeSeries) = t := by
  cases t
  cases h
  rfl

theorem eta_variance (t : TimeSeries) {x : Option (List (Option ℚ))} (h : t.variance = x) :
    ({ t with variance := x } : TimeSeries) = t := by
  cases t
  cases h
  rfl

theorem eta_autocorrelation (t : TimeSeries) {x : Option (List (Option (ℚ × ℚ × ℚ)))}
    (h : t.autocorrelation = x) :
    ({ t with autocorrelation := x } : TimeSeries) = t := by
  cases t
  cases h
  rfl

theorem eta_t_pts (t : TimeSeries) {x : Option (List ℚ)} (h : t.t_pts = x) :
    ({ t with t_pts := x } : TimeSeries) = t := by
  cases t
  cases h
  rfl

theorem eta_kendall (t : TimeSeries) {x : Option (List ℚ)} (h : t.kendall_tau = x) :
    ({ t with kendall_tau := x } : TimeSeries) = t := by
  cases t
  cases h
  rfl

/-- Claim C5: on a freshly populated series, every setter is idempotent when
no recompute flag is passed (a second call leaves the cached state unchanged:
the guarded setters skip, the unguarded ones recompute the identical value),
and passing `rerun=True` overwrites the cache with the same result as the
fresh computation on the unchanged input. -/
theorem claim_C5_setters_idempotent_and_rerun
    (val : List ℚ) (ti tm : ℚ) (sw w : ℕ) (label : String)
    (ts : TimeSeries) (hts : ts = TimeSeries.init (some val) ti tm sw w label)
    (hne : val ≠ []) (hw : w ≠ 0) :
    ((ts.set_ratio_to_sw_average false) >>= (fun t => t.set_ratio_to_sw_average false)
        = ts.set_ratio_to_sw_average false) ∧
    ((ts.set_ratio_to_sw_average false) >>= (fun t => t.set_ratio_to_sw_average true)
        = ts.set_ratio_to_sw_average false) ∧
    ((ts.set_variance) >>= TimeSeries.set_variance = ts.set_variance) ∧
    ((ts.set_autocorrelation) >>= TimeSeries.set_autocorrelation
        = ts.set_autocorrelation) ∧
    ((ts.set_t_pts) >>= TimeSeries.set_t_pts = ts.set_t_pts) ∧
    ((ts.set_kendall_tau false) >>= (fun t => t.set_kendall_tau false)
        = ts.set_kendall_tau false) ∧
    ((ts.set_kendall_tau false) >>= (fun t => t.set_kendall_tau true)
        = ts.set_kendall_tau false) ∧
    ((ts.set_skewness) >>= TimeSeries.set_skewness = ts.set_skewness) := by
  subst hts
  have hlen : val.length ≠ 0 := fun h => hne (List.length_eq_zero.mp h)
  rw [init_some]
  refine ⟨?_, ?_, ?_, ?_, ?_, ?_, ?_, rfl⟩
  · rw [set_ratio_eq _ val val.length sw false rfl rfl rfl hlen (Or.inl rfl), ok_bind,
      set_ratio_skip _ (fun h => Option.noConfusion h)]
  · rw [set_ratio_eq _ val val.length sw false rfl rfl rfl hlen (Or.inl rfl), ok_bind,
      set_ratio_eq _ val val.length sw true rfl rfl rfl hlen (Or.inr rfl),
      eta_ratio _ rfl]
  · rw [set_variance_eq _ val w rfl rfl hw, ok_bind,
      set_variance_eq _ val w rfl rfl hw, eta_variance _ rfl]
  · rw [set_autocorrelation_eq _ val w rfl rfl hw, ok_bind,
      set_autocorrelation_eq _ val w rfl rfl hw, eta_autocorrelation _ rfl]
  · rw [set_t_pts_eq _ val.length tm ti rfl rfl rfl, ok_bind,
      set_t_pts_eq _ val.length tm ti rfl rfl rfl, eta_t_pts _ rfl]
  · rw [set_kendall_tau_eq _ val w false rfl rfl hw (Or.inl rfl), ok_bind,
      set_kendall_tau_skip _ (fun h => Option.noConfusion h)]
  · rw [set_kendall_tau_eq _ val w false rfl rfl hw (Or.inl rfl), ok_bind,
      set_kendall_tau_eq _ val w true rfl rfl hw (Or.inr rfl), eta_kendall _ rfl]

/-- Witness for C5 at `val=[1,2]` with the default-like parameters. -/
theorem claim_C5_setters_idempotent_and_rerun_witness :
    (((TimeSeries.init (some [1, 2]) 300 0 40 10 "").set_ratio_to_sw_average false)
          >>= (fun t => t.set_ratio_to_sw_average false)
        = (TimeSeries.init (some [1, 2]) 300 0 40 10 "").set_ratio_to_sw_average false) ∧
    (((TimeSeries.init (some [1, 2]) 300 0 40 10 "").set_ratio_to_sw_average false)
          >>= (fun t => t.set_ratio_to_sw_average true)
        = (TimeSeries.init (some [1, 2]) 300 0 40 10 "").set_ratio_to_sw_average false) ∧
    (((TimeSeries.init (some [1, 2]) 300 0 40 10 "").set_variance)
          >>= TimeSeries.set_variance
        = (TimeSeries.init (some [1, 2]) 300 0 40 10 "").set_variance) ∧
    (((TimeSeries.init (some [1, 2]) 300 0 40 10 "").set_autocorrelation)
          >>= TimeSeries.set_autocorrelation
        = (TimeSeries.init (some [1, 2]) 300 0 40 10 "").set_autocorrelation) ∧
    (((TimeSeries.init (some [1, 2]) 300 0 40 10 "").set_t_pts)
          >>= TimeSeries.set_t_pts
        = (TimeSeries.init (some [1, 2]) 300 0 40 10 "").set_t_pts) ∧
    (((TimeSeries.init (some [1, 2]) 300 0 40 10 "").set_kendall_tau false)
          >>= (fun t => t.set_kendall_tau false)
        = (TimeSeries.init (some [1, 2]) 300 0 40 10 "").set_kendall_tau false) ∧
    (((TimeSeries.init (some [1, 2]) 300 0 40 10 "").set_kendall_tau false)
          >>= (fun t => t.set_kendall_tau true)
        = (TimeSeries.init (some [1, 2]) 300 0 40 10 "").set_kendall_tau false) ∧
    (((TimeSeries.init (some [1, 2]) 300 0 40 10 "").set_skewness)
          >>= TimeSeries.set_skewness
        = (TimeSeries.init (some [1, 2]) 300 0 40 10 "").set_skewness) :=
  claim_C5_setters_idempotent_and_rerun [1, 2] 300 0 40 10 ""
    (TimeSeries.init (some [1, 2]) 300 0 40 10 "") rfl (by decide) (by decide)

end TS
